import Mathlib

/-!
Shallow embedding of `src/main.py` of the online-sports-rental-service
repository: a read-only HTTP API exposing three tables (User, Equipment,
Rental) as JSON collections, backed by fixed SQL SELECT queries.

Database rows are modelled as tuples typed per the table schema the
queries assume; query and connection failures are modelled with
`Except String`; the connection lifecycle is modelled as an event trace.
-/

/-- JSON values, as produced by the framework's serialization of the
handlers' return values. -/
inductive Json where
  | str (s : String)
  | num (n : Int)
  | null
  | arr (elems : List Json)
  | obj (fields : List (String × Json))
deriving Repr

/-- A `datetime` value, kept opaque up to its ISO-8601 rendering, which is
all the API surface observes of it. -/
structure Timestamp where
  iso : String
deriving Repr, DecidableEq

-- ----------------------------
--  DATA MODELS (dataclasses in main.py)
-- ----------------------------

/-- The `User` dataclass of `src/main.py`. -/
structure User where
  userId : Int
  firstName : String
  lastName : String
  totalRentals : Int
deriving Repr, DecidableEq

/-- The `Equipment` dataclass of `src/main.py`. -/
structure Equipment where
  equipmentId : Int
  name : String
  category : String
  totalRentals : Int
  equipmentStatus : String
deriving Repr, DecidableEq

/-- The `Rental` dataclass of `src/main.py`. -/
structure Rental where
  rentalId : Int
  dateStart : Timestamp
  dateFinish : Option Timestamp
  expectedReturn : Timestamp
  actualReturn : Option Timestamp
  status : String
  userId : Int
  equipmentId : Int
deriving Repr, DecidableEq

-- ----------------------------
--  API MODELS (Pydantic in main.py)
-- ----------------------------

/-- The `UserOut` Pydantic model of `src/main.py`. -/
structure UserOut where
  userId : Int
  firstName : String
  lastName : String
  totalRentals : Int
deriving Repr, DecidableEq

/-- The `EquipmentOut` Pydantic model of `src/main.py`. -/
structure EquipmentOut where
  equipmentId : Int
  name : String
  category : String
  totalRentals : Int
  equipmentStatus : String
deriving Repr, DecidableEq

/-- The `RentalOut` Pydantic model of `src/main.py`. -/
structure RentalOut where
  rentalId : Int
  dateStart : Timestamp
  dateFinish : Option Timestamp
  expectedReturn : Timestamp
  actualReturn : Option Timestamp
  status : String
  userId : Int
  equipmentId : Int
deriving Repr, DecidableEq

-- ----------------------------
--  ROWS returned by the three queries
-- ----------------------------

/-- A row returned by the users query: positions 0..3 hold
userId, firstName, lastName, totalRentals. -/
abbrev UserRow : Type := Int × String × String × Int

/-- A row returned by the equipment query: positions 0..4 hold
equipmentId, name, category, totalRentals, equipmentStatus. -/
abbrev EquipmentRow : Type := Int × String × String × Int × String

/-- A row returned by the rentals query: positions 0..7 hold
rentalId, dateStart, dateFinish, expectedReturn, actualReturn, status,
userId, equipmentId. -/
abbrev RentalRow : Type :=
  Int × Timestamp × Option Timestamp × Timestamp × Option Timestamp ×
    String × Int × Int

/-- The row-to-record constructor inside `fetch_users`:
`User(userId=row[0], firstName=row[1], lastName=row[2], totalRentals=row[3])`. -/
def userOfRow : UserRow → User
  | (c0, c1, c2, c3) =>
    { userId := c0, firstName := c1, lastName := c2, totalRentals := c3 }

/-- The row-to-record constructor inside `fetch_equipments`. -/
def equipmentOfRow : EquipmentRow → Equipment
  | (c0, c1, c2, c3, c4) =>
    { equipmentId := c0, name := c1, category := c2, totalRentals := c3,
      equipmentStatus := c4 }

/-- The row-to-record constructor inside `fetch_rentals`. -/
def rentalOfRow : RentalRow → Rental
  | (c0, c1, c2, c3, c4, c5, c6, c7) =>
    { rentalId := c0, dateStart := c1, dateFinish := c2, expectedReturn := c3,
      actualReturn := c4, status := c5, userId := c6, equipmentId := c7 }

/-- The list comprehension of `fetch_users`: one `User` per fetched row,
in fetch order. -/
def mapUserRows : List UserRow → List User
  | [] => []
  | r :: rs => userOfRow r :: mapUserRows rs

/-- The list comprehension of `fetch_equipments`. -/
def mapEquipmentRows : List EquipmentRow → List Equipment
  | [] => []
  | r :: rs => equipmentOfRow r :: mapEquipmentRows rs

/-- The list comprehension of `fetch_rentals`. -/
def mapRentalRows : List RentalRow → List Rental
  | [] => []
  | r :: rs => rentalOfRow r :: mapRentalRows rs

-- ----------------------------
--  record -> API model conversions (`XOut(**x.__dict__)` in the handlers)
-- ----------------------------

/-- Copy `UserOut(**u.__dict__)`: field-by-field copy of a `User` into a
`UserOut`. -/
def UserOut.ofUser (u : User) : UserOut :=
  { userId := u.userId, firstName := u.firstName, lastName := u.lastName,
    totalRentals := u.totalRentals }

/-- The inverse direction, for stating structural identity of the two
record shapes. -/
def User.ofOut (v : UserOut) : User :=
  { userId := v.userId, firstName := v.firstName, lastName := v.lastName,
    totalRentals := v.totalRentals }

/-- Copy `EquipmentOut(**e.__dict__)`. -/
def EquipmentOut.ofEquipment (e : Equipment) : EquipmentOut :=
  { equipmentId := e.equipmentId, name := e.name, category := e.category,
    totalRentals := e.totalRentals, equipmentStatus := e.equipmentStatus }

/-- The inverse direction, for stating structural identity. -/
def Equipment.ofOut (v : EquipmentOut) : Equipment :=
  { equipmentId := v.equipmentId, name := v.name, category := v.category,
    totalRentals := v.totalRentals, equipmentStatus := v.equipmentStatus }

/-- Copy `RentalOut(**r.__dict__)`. -/
def RentalOut.ofRental (r : Rental) : RentalOut :=
  { rentalId := r.rentalId, dateStart := r.dateStart,
    dateFinish := r.dateFinish, expectedReturn := r.expectedReturn,
    actualReturn := r.actualReturn, status := r.status, userId := r.userId,
    equipmentId := r.equipmentId }

/-- The inverse direction, for stating structural identity. -/
def Rental.ofOut (v : RentalOut) : Rental :=
  { rentalId := v.rentalId, dateStart := v.dateStart,
    dateFinish := v.dateFinish, expectedReturn := v.expectedReturn,
    actualReturn := v.actualReturn, status := v.status, userId := v.userId,
    equipmentId := v.equipmentId }

/-- The list comprehension `[UserOut(**u.__dict__) for u in users]` of
`get_users`. -/
def mapUsersOut : List User → List UserOut
  | [] => []
  | u :: us => UserOut.ofUser u :: mapUsersOut us

/-- The list comprehension of `get_equipment`. -/
def mapEquipmentsOut : List Equipment → List EquipmentOut
  | [] => []
  | e :: es => EquipmentOut.ofEquipment e :: mapEquipmentsOut es

/-- The list comprehension of `get_rentals`. -/
def mapRentalsOut : List Rental → List RentalOut
  | [] => []
  | r :: rs => RentalOut.ofRental r :: mapRentalsOut rs

-- ----------------------------
--  JSON serialization of the API models (framework behavior)
-- ----------------------------

/-- Serialization of an optional timestamp: `null` when absent. -/
def jsonOfOptTime : Option Timestamp → Json
  | none => Json.null
  | some t => Json.str t.iso

/-- Framework serialization of a `UserOut` value. -/
def UserOut.toJson (u : UserOut) : Json :=
  Json.obj
    [("userId", Json.num u.userId), ("firstName", Json.str u.firstName),
     ("lastName", Json.str u.lastName),
     ("totalRentals", Json.num u.totalRentals)]

/-- Framework serialization of an `EquipmentOut` value. -/
def EquipmentOut.toJson (e : EquipmentOut) : Json :=
  Json.obj
    [("equipmentId", Json.num e.equipmentId), ("name", Json.str e.name),
     ("category", Json.str e.category),
     ("totalRentals", Json.num e.totalRentals),
     ("equipmentStatus", Json.str e.equipmentStatus)]

/-- Framework serialization of a `RentalOut` value. -/
def RentalOut.toJson (r : RentalOut) : Json :=
  Json.obj
    [("rentalId", Json.num r.rentalId),
     ("dateStart", Json.str r.dateStart.iso),
     ("dateFinish", jsonOfOptTime r.dateFinish),
     ("expectedReturn", Json.str r.expectedReturn.iso),
     ("actualReturn", jsonOfOptTime r.actualReturn),
     ("status", Json.str r.status), ("userId", Json.num r.userId),
     ("equipmentId", Json.num r.equipmentId)]

/-- Framework serialization of a list of `UserOut` values, element by
element in order. -/
def jsonOfUsersOut : List UserOut → List Json
  | [] => []
  | u :: us => u.toJson :: jsonOfUsersOut us

/-- Framework serialization of a list of `EquipmentOut` values. -/
def jsonOfEquipmentsOut : List EquipmentOut → List Json
  | [] => []
  | e :: es => e.toJson :: jsonOfEquipmentsOut es

/-- Framework serialization of a list of `RentalOut` values. -/
def jsonOfRentalsOut : List RentalOut → List Json
  | [] => []
  | r :: rs => r.toJson :: jsonOfRentalsOut rs

-- ----------------------------
--  QUERY TEXTS (exact strings passed to cursor.execute)
-- ----------------------------

/-- The SQL text executed by `fetch_users`. -/
def usersQuery : String :=
  "SELECT userId, firstName, lastName, totalRentals FROM dbo.[User];"

/-- The SQL text executed by `fetch_equipments` (a Python triple-quoted
string, whitespace included). -/
def equipmentQuery : String :=
  "\n        SELECT equipmentId, name, category, totalRentals, equipmentStatus\n        FROM dbo.Equipment;\n        "

/-- The SQL text executed by `fetch_rentals` (a Python triple-quoted
string, whitespace included). -/
def rentalsQuery : String :=
  "\n        SELECT \n            rentalId,\n            dateStart,\n            dateFinish,\n            expectedReturn,\n            actualReturn,\n            status,\n            userId,\n            equipmentId\n        FROM dbo.Rental;\n        "

/-- A statement is a plain SELECT when its first whitespace-delimited
token is the keyword `SELECT`. -/
def isSelectStatement (q : String) : Bool :=
  List.isPrefixOf "SELECT".toList (q.toList.dropWhile Char.isWhitespace)

-- ----------------------------
--  DB CONNECTION MODEL
-- ----------------------------

/-- A live database connection: what each of the three fixed queries
would return on it, each either a row list or a query-time error. -/
structure DbConn where
  usersRows : Except String (List UserRow)
  equipmentRows : Except String (List EquipmentRow)
  rentalRows : Except String (List RentalRow)

/-- Connection-lifecycle events of a request, for stating the
scoped-resource property. -/
inductive Ev where
  | acquire (id : Nat)
  | release (id : Nat)
  | query (q : String)
deriving Repr, DecidableEq

/-- Model of `with get_connection() as conn: body(conn)` where `get_connection()`
may raise (`.error`): on a raised connect no connection ever exists; on a
successful connect the body runs and the connection is released when the
block is left, whether the body succeeded or raised. `freshId` is the
identity of the newly created connection. -/
def withConnection (freshId : Nat) (c : Except String DbConn)
    (body : DbConn → Except String α × List Ev) :
    Except String α × List Ev :=
  match c with
  | .error e => (.error e, [])
  | .ok conn =>
    let r := body conn
    (r.1, Ev.acquire freshId :: (r.2 ++ [Ev.release freshId]))

/-- Function `fetch_users`: execute the users query on the cursor (recording the
statement), then map every fetched row into a `User`. A query failure
propagates as an error. -/
def fetch_users (conn : DbConn) : Except String (List User) × List Ev :=
  (match conn.usersRows with
   | .error e => .error e
   | .ok rows => .ok (mapUserRows rows),
   [Ev.query usersQuery])

/-- Function `fetch_equipments`. -/
def fetch_equipments (conn : DbConn) :
    Except String (List Equipment) × List Ev :=
  (match conn.equipmentRows with
   | .error e => .error e
   | .ok rows => .ok (mapEquipmentRows rows),
   [Ev.query equipmentQuery])

/-- Function `fetch_rentals`. -/
def fetch_rentals (conn : DbConn) : Except String (List Rental) × List Ev :=
  (match conn.rentalRows with
   | .error e => .error e
   | .ok rows => .ok (mapRentalRows rows),
   [Ev.query rentalsQuery])

-- ----------------------------
--  HTTP RESPONSES AND ROUTES
-- ----------------------------

/-- An HTTP response: status code and serialized JSON body. -/
structure Response where
  status : Nat
  body : Json
deriving Repr

/-- The framework's response when a handler raises an unhandled
exception. -/
def serverErrorResponse : Response :=
  { status := 500, body := Json.obj [("detail", Json.str "Internal Server Error")] }

/-- Handler `get_users`: acquire a connection, fetch and map the users, release
the connection, then return the `UserOut` list serialized as a JSON
array; an unhandled exception becomes the framework's server error. -/
def get_users (freshId : Nat) (c : Except String DbConn) :
    Response × List Ev :=
  let r := withConnection freshId c fetch_users
  (match r.1 with
   | .ok users => { status := 200, body := Json.arr (jsonOfUsersOut (mapUsersOut users)) }
   | .error _ => serverErrorResponse,
   r.2)

/-- Handler `get_equipment`. -/
def get_equipment (freshId : Nat) (c : Except String DbConn) :
    Response × List Ev :=
  let r := withConnection freshId c fetch_equipments
  (match r.1 with
   | .ok es => { status := 200, body := Json.arr (jsonOfEquipmentsOut (mapEquipmentsOut es)) }
   | .error _ => serverErrorResponse,
   r.2)

/-- Handler `get_rentals`. -/
def get_rentals (freshId : Nat) (c : Except String DbConn) :
    Response × List Ev :=
  let r := withConnection freshId c fetch_rentals
  (match r.1 with
   | .ok rs => { status := 200, body := Json.arr (jsonOfRentalsOut (mapRentalsOut rs)) }
   | .error _ => serverErrorResponse,
   r.2)

/-- Handler `root`: returns the fixed string, touching no connection. -/
def root : Response × List Ev :=
  ({ status := 200, body := Json.str "Rental API is running" }, [])

/-- The four GET routes bound on the app. -/
inductive Route where
  | root
  | users
  | equipment
  | rentals
deriving Repr, DecidableEq

/-- Dispatch of one request: the route's handler runs against the
connection outcome `c`, with `freshId` the identity the connection would
get. Returns the response and the connection/query event trace. -/
def handleRequest (freshId : Nat) (c : Except String DbConn) :
    Route → Response × List Ev
  | .root => root
  | .users => get_users freshId c
  | .equipment => get_equipment freshId c
  | .rentals => get_rentals freshId c

-- ----------------------------
--  OUTCOME HELPERS (for stating pre-conditions)
-- ----------------------------

/-- What the users query yields for a request: the connection error if
connecting failed, otherwise the query's own outcome. -/
def usersOutcome (c : Except String DbConn) :
    Except String (List UserRow) :=
  match c with
  | .error e => .error e
  | .ok conn => conn.usersRows

/-- Outcome of the equipment query for a request. -/
def equipmentOutcome (c : Except String DbConn) :
    Except String (List EquipmentRow) :=
  match c with
  | .error e => .error e
  | .ok conn => conn.equipmentRows

/-- Outcome of the rentals query for a request. -/
def rentalsOutcome (c : Except String DbConn) :
    Except String (List RentalRow) :=
  match c with
  | .error e => .error e
  | .ok conn => conn.rentalRows

-- ----------------------------
--  TRACE PROJECTIONS AND SQL EFFECT MODEL
-- ----------------------------

/-- Connection ids acquired in a trace. -/
def acquiredIds : List Ev → List Nat
  | [] => []
  | Ev.acquire i :: evs => i :: acquiredIds evs
  | _ :: evs => acquiredIds evs

/-- Connection ids released in a trace. -/
def releasedIds : List Ev → List Nat
  | [] => []
  | Ev.release i :: evs => i :: releasedIds evs
  | _ :: evs => releasedIds evs

/-- SQL statement texts executed in a trace. -/
def executedStatements : List Ev → List String
  | [] => []
  | Ev.query q :: evs => q :: executedStatements evs
  | _ :: evs => executedStatements evs

/-- The three tables as persisted database state, plus a flag recording
whether any statement ever wrote to them. -/
structure Tables where
  users : List UserRow
  equipment : List EquipmentRow
  rentals : List RentalRow
  mutated : Bool

/-- Effect of one SQL statement on the persisted tables: a SELECT reads
only; anything else is a write and marks the state mutated. -/
def applyStatement (t : Tables) (q : String) : Tables :=
  if isSelectStatement q then t else { t with mutated := true }

/-- Effect of a statement sequence on the persisted tables. -/
def applyStatements (t : Tables) : List String → Tables
  | [] => t
  | q :: qs => applyStatements (applyStatement t q) qs

-- ----------------------------
--  STARTUP (module-level code of main.py)
-- ----------------------------

/-- The module-level startup of `main.py`: read
`AZURE_SQL_CONNECTION_STRING` from the environment (`os.getenv` yields
`none` when unset) and raise `ValueError` when the value is falsy —
absent or the empty string — before any route exists. -/
def loadConnectionString (env : String → Option String) :
    Except String String :=
  match env "AZURE_SQL_CONNECTION_STRING" with
  | none =>
    .error "AZURE_SQL_CONNECTION_STRING is not set in environment/.env"
  | some s =>
    if s = "" then
      .error "AZURE_SQL_CONNECTION_STRING is not set in environment/.env"
    else
      .ok s

-- ----------------------------
--  COMPOSED PIPELINES AND SAMPLE CONNECTIONS
-- ----------------------------

/-- The JSON elements of a successful `/users` response, as a function of
the fetched rows: row-to-record mapping, record-to-model copy, then
serialization. -/
def usersBodyList (rows : List UserRow) : List Json :=
  jsonOfUsersOut (mapUsersOut (mapUserRows rows))

/-- The JSON elements of a successful `/equipment` response. -/
def equipmentBodyList (rows : List EquipmentRow) : List Json :=
  jsonOfEquipmentsOut (mapEquipmentsOut (mapEquipmentRows rows))

/-- The JSON elements of a successful `/rentals` response. -/
def rentalsBodyList (rows : List RentalRow) : List Json :=
  jsonOfRentalsOut (mapRentalsOut (mapRentalRows rows))

/-- A connection whose users table holds exactly the spec's example row
(1, "Ada", "Lovelace", 3) and whose other tables are empty. -/
def demoConn : DbConn :=
  { usersRows := .ok [(1, "Ada", "Lovelace", 3)], equipmentRows := .ok [],
    rentalRows := .ok [] }

/-- A connection on which all three queries succeed with zero rows. -/
def emptyConn : DbConn :=
  { usersRows := .ok [], equipmentRows := .ok [], rentalRows := .ok [] }

/-- An empty persisted state, for instantiating frame statements. -/
def emptyTables : Tables :=
  { users := [], equipment := [], rentals := [], mutated := false }

-- ----------------------------
--  HELPER LEMMAS
-- ----------------------------

theorem mapUserRows_eq_map (rows : List UserRow) :
    mapUserRows rows = rows.map userOfRow := by
  induction rows with
  | nil => rfl
  | cons r rs ih => simp [mapUserRows, ih]

theorem mapEquipmentRows_eq_map (rows : List EquipmentRow) :
    mapEquipmentRows rows = rows.map equipmentOfRow := by
  induction rows with
  | nil => rfl
  | cons r rs ih => simp [mapEquipmentRows, ih]

theorem mapRentalRows_eq_map (rows : List RentalRow) :
    mapRentalRows rows = rows.map rentalOfRow := by
  induction rows with
  | nil => rfl
  | cons r rs ih => simp [mapRentalRows, ih]

theorem mapUsersOut_eq_map (us : List User) :
    mapUsersOut us = us.map UserOut.ofUser := by
  induction us with
  | nil => rfl
  | cons u us ih => simp [mapUsersOut, ih]

theorem mapEquipmentsOut_eq_map (es : List Equipment) :
    mapEquipmentsOut es = es.map EquipmentOut.ofEquipment := by
  induction es with
  | nil => rfl
  | cons e es ih => simp [mapEquipmentsOut, ih]

theorem mapRentalsOut_eq_map (rs : List Rental) :
    mapRentalsOut rs = rs.map RentalOut.ofRental := by
  induction rs with
  | nil => rfl
  | cons r rs ih => simp [mapRentalsOut, ih]

theorem jsonOfUsersOut_eq_map (us : List UserOut) :
    jsonOfUsersOut us = us.map UserOut.toJson := by
  induction us with
  | nil => rfl
  | cons u us ih => simp [jsonOfUsersOut, ih]

theorem jsonOfEquipmentsOut_eq_map (es : List EquipmentOut) :
    jsonOfEquipmentsOut es = es.map EquipmentOut.toJson := by
  induction es with
  | nil => rfl
  | cons e es ih => simp [jsonOfEquipmentsOut, ih]

theorem jsonOfRentalsOut_eq_map (rs : List RentalOut) :
    jsonOfRentalsOut rs = rs.map RentalOut.toJson := by
  induction rs with
  | nil => rfl
  | cons r rs ih => simp [jsonOfRentalsOut, ih]

theorem usersBodyList_eq_map (rows : List UserRow) :
    usersBodyList rows =
      rows.map (fun r => UserOut.toJson (UserOut.ofUser (userOfRow r))) := by
  simp [usersBodyList, mapUserRows_eq_map, mapUsersOut_eq_map,
    jsonOfUsersOut_eq_map, List.map_map, Function.comp]

theorem equipmentBodyList_eq_map (rows : List EquipmentRow) :
    equipmentBodyList rows =
      rows.map
        (fun r => EquipmentOut.toJson (EquipmentOut.ofEquipment (equipmentOfRow r))) := by
  simp [equipmentBodyList, mapEquipmentRows_eq_map, mapEquipmentsOut_eq_map,
    jsonOfEquipmentsOut_eq_map, List.map_map, Function.comp]

theorem rentalsBodyList_eq_map (rows : List RentalRow) :
    rentalsBodyList rows =
      rows.map (fun r => RentalOut.toJson (RentalOut.ofRental (rentalOfRow r))) := by
  simp [rentalsBodyList, mapRentalRows_eq_map, mapRentalsOut_eq_map,
    jsonOfRentalsOut_eq_map, List.map_map, Function.comp]

theorem usersBodyList_length (rows : List UserRow) :
    (usersBodyList rows).length = rows.length := by
  simp [usersBodyList_eq_map]

theorem equipmentBodyList_length (rows : List EquipmentRow) :
    (equipmentBodyList rows).length = rows.length := by
  simp [equipmentBodyList_eq_map]

theorem rentalsBodyList_length (rows : List RentalRow) :
    (rentalsBodyList rows).length = rows.length := by
  simp [rentalsBodyList_eq_map]

theorem get_users_ok (fid : Nat) (c : Except String DbConn)
    (rows : List UserRow) (h : usersOutcome c = .ok rows) :
    (handleRequest fid c Route.users).1 =
      { status := 200, body := Json.arr (usersBodyList rows) } := by
  cases c with
  | error e => simp [usersOutcome] at h
  | ok conn =>
    simp only [usersOutcome] at h
    simp [handleRequest, get_users, withConnection, fetch_users, h,
      usersBodyList]

theorem get_equipment_ok (fid : Nat) (c : Except String DbConn)
    (rows : List EquipmentRow) (h : equipmentOutcome c = .ok rows) :
    (handleRequest fid c Route.equipment).1 =
      { status := 200, body := Json.arr (equipmentBodyList rows) } := by
  cases c with
  | error e => simp [equipmentOutcome] at h
  | ok conn =>
    simp only [equipmentOutcome] at h
    simp [handleRequest, get_equipment, withConnection, fetch_equipments, h,
      equipmentBodyList]

theorem get_rentals_ok (fid : Nat) (c : Except String DbConn)
    (rows : List RentalRow) (h : rentalsOutcome c = .ok rows) :
    (handleRequest fid c Route.rentals).1 =
      { status := 200, body := Json.arr (rentalsBodyList rows) } := by
  cases c with
  | error e => simp [rentalsOutcome] at h
  | ok conn =>
    simp only [rentalsOutcome] at h
    simp [handleRequest, get_rentals, withConnection, fetch_rentals, h,
      rentalsBodyList]

theorem get_users_err (fid : Nat) (c : Except String DbConn) (e : String)
    (h : usersOutcome c = .error e) :
    (handleRequest fid c Route.users).1 = serverErrorResponse := by
  cases c with
  | error e2 =>
    simp only [usersOutcome] at h
    simp [handleRequest, get_users, withConnection]
  | ok conn =>
    simp only [usersOutcome] at h
    simp [handleRequest, get_users, withConnection, fetch_users, h]

theorem get_equipment_err (fid : Nat) (c : Except String DbConn) (e : String)
    (h : equipmentOutcome c = .error e) :
    (handleRequest fid c Route.equipment).1 = serverErrorResponse := by
  cases c with
  | error e2 =>
    simp only [equipmentOutcome] at h
    simp [handleRequest, get_equipment, withConnection]
  | ok conn =>
    simp only [equipmentOutcome] at h
    simp [handleRequest, get_equipment, withConnection, fetch_equipments, h]

theorem get_rentals_err (fid : Nat) (c : Except String DbConn) (e : String)
    (h : rentalsOutcome c = .error e) :
    (handleRequest fid c Route.rentals).1 = serverErrorResponse := by
  cases c with
  | error e2 =>
    simp only [rentalsOutcome] at h
    simp [handleRequest, get_rentals, withConnection]
  | ok conn =>
    simp only [rentalsOutcome] at h
    simp [handleRequest, get_rentals, withConnection, fetch_rentals, h]

theorem trace_shape (fid : Nat) (c : Except String DbConn) (route : Route) :
    (handleRequest fid c route).2 = [] ∨
    ∃ q, (handleRequest fid c route).2 =
      [Ev.acquire fid, Ev.query q, Ev.release fid] := by
  cases route with
  | root => exact Or.inl rfl
  | users =>
    cases c with
    | error e => exact Or.inl rfl
    | ok conn => exact Or.inr ⟨usersQuery, rfl⟩
  | equipment =>
    cases c with
    | error e => exact Or.inl rfl
    | ok conn => exact Or.inr ⟨equipmentQuery, rfl⟩
  | rentals =>
    cases c with
    | error e => exact Or.inl rfl
    | ok conn => exact Or.inr ⟨rentalsQuery, rfl⟩

theorem executed_shape (fid : Nat) (c : Except String DbConn)
    (route : Route) :
    executedStatements (handleRequest fid c route).2 = [] ∨
    executedStatements (handleRequest fid c route).2 = [usersQuery] ∨
    executedStatements (handleRequest fid c route).2 = [equipmentQuery] ∨
    executedStatements (handleRequest fid c route).2 = [rentalsQuery] := by
  cases route with
  | root => exact Or.inl rfl
  | users =>
    cases c with
    | error e => exact Or.inl rfl
    | ok conn => exact Or.inr (Or.inl rfl)
  | equipment =>
    cases c with
    | error e => exact Or.inl rfl
    | ok conn => exact Or.inr (Or.inr (Or.inl rfl))
  | rentals =>
    cases c with
    | error e => exact Or.inl rfl
    | ok conn => exact Or.inr (Or.inr (Or.inr rfl))

theorem usersQuery_select : isSelectStatement usersQuery = true := by decide

theorem equipmentQuery_select : isSelectStatement equipmentQuery = true := by
  decide

theorem rentalsQuery_select : isSelectStatement rentalsQuery = true := by
  decide

-- ----------------------------
--  CLAIMS
-- ----------------------------

/-- C1: for each of the three list endpoints, whenever the corresponding
query returns a row sequence, the response body is a JSON array whose
length equals the number of returned rows — every row becomes exactly one
record, none is dropped. -/
theorem claim1_list_length (fid : Nat) (c : Except String DbConn) :
    (∀ rows, usersOutcome c = .ok rows →
      ∃ l, (handleRequest fid c Route.users).1.body = Json.arr l ∧
        l.length = rows.length) ∧
    (∀ rows, equipmentOutcome c = .ok rows →
      ∃ l, (handleRequest fid c Route.equipment).1.body = Json.arr l ∧
        l.length = rows.length) ∧
    (∀ rows, rentalsOutcome c = .ok rows →
      ∃ l, (handleRequest fid c Route.rentals).1.body = Json.arr l ∧
        l.length = rows.length) := by
  refine ⟨fun rows h => ?_, fun rows h => ?_, fun rows h => ?_⟩
  · exact ⟨usersBodyList rows, by rw [get_users_ok fid c rows h],
      usersBodyList_length rows⟩
  · exact ⟨equipmentBodyList rows, by rw [get_equipment_ok fid c rows h],
      equipmentBodyList_length rows⟩
  · exact ⟨rentalsBodyList rows, by rw [get_rentals_ok fid c rows h],
      rentalsBodyList_length rows⟩

theorem claim1_witness :
    ∃ l, (handleRequest 0 (Except.ok demoConn) Route.users).1.body =
      Json.arr l ∧
      l.length = ([(1, "Ada", "Lovelace", 3)] : List UserRow).length :=
  (claim1_list_length 0 (Except.ok demoConn)).1 [(1, "Ada", "Lovelace", 3)]
    rfl

/-- C2: each row mapper is positional — row (c0, c1, c2, c3) becomes the
User record with userId = c0, firstName = c1, lastName = c2,
totalRentals = c3, and analogously for Equipment (5 columns) and Rental
(8 columns); for a User table holding exactly (1, "Ada", "Lovelace", 3),
GET /users returns the one-element JSON array of the corresponding
object. -/
theorem claim2_positional_mapping :
    (∀ (c0 : Int) (c1 c2 : String) (c3 : Int),
      userOfRow (c0, c1, c2, c3) =
        { userId := c0, firstName := c1, lastName := c2,
          totalRentals := c3 }) ∧
    (∀ (c0 : Int) (c1 c2 : String) (c3 : Int) (c4 : String),
      equipmentOfRow (c0, c1, c2, c3, c4) =
        { equipmentId := c0, name := c1, category := c2, totalRentals := c3,
          equipmentStatus := c4 }) ∧
    (∀ (c0 : Int) (c1 : Timestamp) (c2 : Option Timestamp) (c3 : Timestamp)
      (c4 : Option Timestamp) (c5 : String) (c6 c7 : Int),
      rentalOfRow (c0, c1, c2, c3, c4, c5, c6, c7) =
        { rentalId := c0, dateStart := c1, dateFinish := c2,
          expectedReturn := c3, actualReturn := c4, status := c5,
          userId := c6, equipmentId := c7 }) ∧
    (handleRequest 0 (Except.ok demoConn) Route.users).1 =
      { status := 200,
        body := Json.arr [Json.obj
          [("userId", Json.num 1), ("firstName", Json.str "Ada"),
           ("lastName", Json.str "Lovelace"),
           ("totalRentals", Json.num 3)]] } :=
  ⟨fun _ _ _ _ => rfl, fun _ _ _ _ _ => rfl, fun _ _ _ _ _ _ _ _ => rfl,
   rfl⟩

/-- C3: when the connection or the query fails for a list endpoint, the
request yields the framework's server error (status 500), never a partial
or empty-success response — in particular the error body is not a JSON
array. -/
theorem claim3_db_error (fid : Nat) (c : Except String DbConn)
    (e : String) :
    ((usersOutcome c = .error e →
        (handleRequest fid c Route.users).1 = serverErrorResponse) ∧
     (equipmentOutcome c = .error e →
        (handleRequest fid c Route.equipment).1 = serverErrorResponse) ∧
     (rentalsOutcome c = .error e →
        (handleRequest fid c Route.rentals).1 = serverErrorResponse)) ∧
    serverErrorResponse.status = 500 ∧
    ∀ l, serverErrorResponse.body ≠ Json.arr l :=
  ⟨⟨get_users_err fid c e, get_equipment_err fid c e,
    get_rentals_err fid c e⟩, rfl, fun _ h => Json.noConfusion h⟩

theorem claim3_witness :
    (handleRequest 0 (Except.error "db down") Route.users).1 =
      serverErrorResponse :=
  (claim3_db_error 0 (Except.error "db down") "db down").1.1 rfl

/-- C4: the startup check raises when the connection-string environment
variable is absent, and succeeds when it is present and non-empty. It is
module-level code, evaluated at launch before any route exists. -/
theorem claim4_startup (env : String → Option String) :
    (env "AZURE_SQL_CONNECTION_STRING" = none →
      loadConnectionString env =
        .error "AZURE_SQL_CONNECTION_STRING is not set in environment/.env") ∧
    (∀ s, env "AZURE_SQL_CONNECTION_STRING" = some s → s ≠ "" →
      loadConnectionString env = .ok s) := by
  constructor
  · intro h
    simp [loadConnectionString, h]
  · intro s h hs
    simp [loadConnectionString, h, hs]

theorem claim4_witness :
    loadConnectionString (fun _ => none) =
      .error "AZURE_SQL_CONNECTION_STRING is not set in environment/.env" ∧
    loadConnectionString (fun _ => some "Driver=ODBC") = .ok "Driver=ODBC" :=
  ⟨(claim4_startup (fun _ => none)).1 rfl,
   (claim4_startup (fun _ => some "Driver=ODBC")).2 "Driver=ODBC" rfl
     (by decide)⟩

/-- C5: the connection is request-scoped — in any request's trace every
acquired connection is released, the acquired id is the request's fresh
id (so two requests with distinct fresh ids never share a connection),
and on a successful connect to a list endpoint the trace is exactly
acquire, query, release. -/
theorem claim5_connection_scoped (fid : Nat) (c : Except String DbConn)
    (route : Route) :
    acquiredIds (handleRequest fid c route).2 =
      releasedIds (handleRequest fid c route).2 ∧
    (∀ i, i ∈ acquiredIds (handleRequest fid c route).2 → i = fid) ∧
    (∀ conn, c = Except.ok conn → route ≠ Route.root →
      ∃ q, (handleRequest fid c route).2 =
        [Ev.acquire fid, Ev.query q, Ev.release fid]) ∧
    (∀ fid2 c2 route2, fid ≠ fid2 → ∀ i,
      i ∈ acquiredIds (handleRequest fid c route).2 →
      i ∉ acquiredIds (handleRequest fid2 c2 route2).2) := by
  have hmem : ∀ (g : Nat) (d : Except String DbConn) (rt : Route) (i : Nat),
      i ∈ acquiredIds (handleRequest g d rt).2 → i = g := by
    intro g d rt i hi
    rcases trace_shape g d rt with h | ⟨q, h⟩ <;> rw [h] at hi
    · simp [acquiredIds] at hi
    · simpa [acquiredIds] using hi
  refine ⟨?_, hmem fid c route, ?_, ?_⟩
  · rcases trace_shape fid c route with h | ⟨q, h⟩ <;> rw [h] <;> rfl
  · intro conn hc hroot
    subst hc
    cases route with
    | root => exact absurd rfl hroot
    | users => exact ⟨usersQuery, rfl⟩
    | equipment => exact ⟨equipmentQuery, rfl⟩
    | rentals => exact ⟨rentalsQuery, rfl⟩
  · intro fid2 c2 route2 hne i hi hi2
    exact hne ((hmem fid c route i hi) ▸ hmem fid2 c2 route2 i hi2)

theorem claim5_witness :
    ∃ q, (handleRequest 1 (Except.ok demoConn) Route.users).2 =
      [Ev.acquire 1, Ev.query q, Ev.release 1] :=
  (claim5_connection_scoped 1 (Except.ok demoConn) Route.users).2.2.1
    demoConn rfl (by decide)

/-- C6: GET / always answers 200 with the fixed non-empty string
"Rental API is running", for every connection outcome, and its trace is
empty — it touches no connection and runs no query. -/
theorem claim6_root (fid : Nat) (c : Except String DbConn) :
    (handleRequest fid c Route.root).1.status = 200 ∧
    (handleRequest fid c Route.root).1.body =
      Json.str "Rental API is running" ∧
    "Rental API is running" ≠ "" ∧
    (handleRequest fid c Route.root).2 = [] :=
  ⟨rfl, rfl, by decide, rfl⟩

/-- C7: each list endpoint preserves the database's row order — on a
successful query the body is the JSON array of the mapped rows, and its
i-th element is exactly the mapping of the i-th returned row, with no
sorting, reordering, pagination, or filtering. -/
theorem claim7_order_preserved (fid : Nat) (c : Except String DbConn) :
    (∀ rows, usersOutcome c = .ok rows →
      (handleRequest fid c Route.users).1.body =
        Json.arr (usersBodyList rows) ∧
      ∀ i : Nat, (usersBodyList rows)[i]? =
        (rows[i]?).map (fun r => UserOut.toJson (UserOut.ofUser (userOfRow r)))) ∧
    (∀ rows, equipmentOutcome c = .ok rows →
      (handleRequest fid c Route.equipment).1.body =
        Json.arr (equipmentBodyList rows) ∧
      ∀ i : Nat, (equipmentBodyList rows)[i]? =
        (rows[i]?).map
          (fun r => EquipmentOut.toJson (EquipmentOut.ofEquipment (equipmentOfRow r)))) ∧
    (∀ rows, rentalsOutcome c = .ok rows →
      (handleRequest fid c Route.rentals).1.body =
        Json.arr (rentalsBodyList rows) ∧
      ∀ i : Nat, (rentalsBodyList rows)[i]? =
        (rows[i]?).map
          (fun r => RentalOut.toJson (RentalOut.ofRental (rentalOfRow r)))) := by
  refine ⟨fun rows h => ⟨by rw [get_users_ok fid c rows h], fun i => ?_⟩,
    fun rows h => ⟨by rw [get_equipment_ok fid c rows h], fun i => ?_⟩,
    fun rows h => ⟨by rw [get_rentals_ok fid c rows h], fun i => ?_⟩⟩
  · rw [usersBodyList_eq_map, List.getElem?_map]
  · rw [equipmentBodyList_eq_map, List.getElem?_map]
  · rw [rentalsBodyList_eq_map, List.getElem?_map]

theorem claim7_witness :
    (handleRequest 0 (Except.ok demoConn) Route.users).1.body =
      Json.arr (usersBodyList [(1, "Ada", "Lovelace", 3)]) ∧
    (usersBodyList [(1, "Ada", "Lovelace", 3)])[0]? =
      (([(1, "Ada", "Lovelace", 3)] : List UserRow)[0]?).map
        (fun r => UserOut.toJson (UserOut.ofUser (userOfRow r))) := by
  have h := (claim7_order_preserved 0 (Except.ok demoConn)).1
    [(1, "Ada", "Lovelace", 3)] rfl
  exact ⟨h.1, h.2 0⟩

/-- C8: every SQL statement any request executes is one of the three
fixed SELECT texts, and running a request's statements against the
persisted tables leaves them unchanged — the system never writes. -/
theorem claim8_read_only (fid : Nat) (c : Except String DbConn)
    (route : Route) (t : Tables) :
    (∀ q, q ∈ executedStatements (handleRequest fid c route).2 →
      q ∈ [usersQuery, equipmentQuery, rentalsQuery] ∧
      isSelectStatement q = true) ∧
    applyStatements t (executedStatements (handleRequest fid c route).2) =
      t := by
  constructor
  · intro q hq
    rcases executed_shape fid c route with h | h | h | h <;> rw [h] at hq
    · simp at hq
    · simp at hq
      subst hq
      exact ⟨by simp, usersQuery_select⟩
    · simp at hq
      subst hq
      exact ⟨by simp, equipmentQuery_select⟩
    · simp at hq
      subst hq
      exact ⟨by simp, rentalsQuery_select⟩
  · rcases executed_shape fid c route with h | h | h | h <;> rw [h]
    · rfl
    · simp [applyStatements, applyStatement, usersQuery_select]
    · simp [applyStatements, applyStatement, equipmentQuery_select]
    · simp [applyStatements, applyStatement, rentalsQuery_select]

theorem claim8_witness :
    (usersQuery ∈ [usersQuery, equipmentQuery, rentalsQuery] ∧
      isSelectStatement usersQuery = true) ∧
    applyStatements emptyTables
      (executedStatements
        (handleRequest 0 (Except.ok demoConn) Route.users).2) =
      emptyTables :=
  ⟨(claim8_read_only 0 (Except.ok demoConn) Route.users emptyTables).1
      usersQuery (List.mem_singleton.mpr rfl),
   (claim8_read_only 0 (Except.ok demoConn) Route.users emptyTables).2⟩

/-- C9: each internal record type and its output-facing API model are
structurally identical — the conversions in both directions are mutually
inverse — and the handlers' record-to-model conversion is the identity on
every field. -/
theorem claim9_models_identical (u : User) (v : UserOut) (e : Equipment)
    (w : EquipmentOut) (r : Rental) (x : RentalOut) :
    UserOut.ofUser u =
      { userId := u.userId, firstName := u.firstName,
        lastName := u.lastName, totalRentals := u.totalRentals } ∧
    User.ofOut (UserOut.ofUser u) = u ∧
    UserOut.ofUser (User.ofOut v) = v ∧
    EquipmentOut.ofEquipment e =
      { equipmentId := e.equipmentId, name := e.name,
        category := e.category, totalRentals := e.totalRentals,
        equipmentStatus := e.equipmentStatus } ∧
    Equipment.ofOut (EquipmentOut.ofEquipment e) = e ∧
    EquipmentOut.ofEquipment (Equipment.ofOut w) = w ∧
    RentalOut.ofRental r =
      { rentalId := r.rentalId, dateStart := r.dateStart,
        dateFinish := r.dateFinish, expectedReturn := r.expectedReturn,
        actualReturn := r.actualReturn, status := r.status,
        userId := r.userId, equipmentId := r.equipmentId } ∧
    Rental.ofOut (RentalOut.ofRental r) = r ∧
    RentalOut.ofRental (Rental.ofOut x) = x :=
  ⟨rfl, rfl, rfl, rfl, rfl, rfl, rfl, rfl, rfl⟩

/-- C10: when a list endpoint's query succeeds with zero rows, the
response is status 200 with the empty JSON array — not an error and not
null. -/
theorem claim10_empty_tables (fid : Nat) (c : Except String DbConn) :
    (usersOutcome c = .ok [] →
      (handleRequest fid c Route.users).1 =
        { status := 200, body := Json.arr [] }) ∧
    (equipmentOutcome c = .ok [] →
      (handleRequest fid c Route.equipment).1 =
        { status := 200, body := Json.arr [] }) ∧
    (rentalsOutcome c = .ok [] →
      (handleRequest fid c Route.rentals).1 =
        { status := 200, body := Json.arr [] }) ∧
    Json.arr [] ≠ Json.null := by
  refine ⟨fun h => ?_, fun h => ?_, fun h => ?_, fun h => Json.noConfusion h⟩
  · rw [get_users_ok fid c [] h]
    rfl
  · rw [get_equipment_ok fid c [] h]
    rfl
  · rw [get_rentals_ok fid c [] h]
    rfl

theorem claim10_witness :
    (handleRequest 0 (Except.ok emptyConn) Route.users).1 =
      { status := 200, body := Json.arr [] } ∧
    (handleRequest 0 (Except.ok emptyConn) Route.equipment).1 =
      { status := 200, body := Json.arr [] } ∧
    (handleRequest 0 (Except.ok emptyConn) Route.rentals).1 =
      { status := 200, body := Json.arr [] } :=
  ⟨(claim10_empty_tables 0 (Except.ok emptyConn)).1 rfl,
   (claim10_empty_tables 0 (Except.ok emptyConn)).2.1 rfl,
   (claim10_empty_tables 0 (Except.ok emptyConn)).2.2.1 rfl⟩
